import Mathlib

/-!
Shallow embedding of the client-side authentication core (the Session
Reconciler) of the pump_work repository: token-gated role computation,
wallet soft login, profile fetching with retry and timeout, realtime
channel management, and the hosted-auth client configuration.

Modelling conventions: JavaScript numbers are rationals, JS strings are
`String`, absent or null values are `Option`.  Outcomes of asynchronous
vendor calls (network fetches, promise races, timers) are passed in as
explicit parameters, and side effects are recorded as explicit effect
traces, so every operation is a pure function of its inputs.
-/

/-- A JavaScript error value, restricted to the name and message fields
that the authentication core inspects. -/
structure JsError where
  name : String
  message : String
deriving Repr, DecidableEq

/-- A row of the profiles table, restricted to the fields the
authentication core reads. -/
structure Profile where
  id : String
  wallet_address : Option String
  token_balance : Option ℚ
  user_type : Option String
deriving Repr, DecidableEq

/-- Whether the first character list is a leading segment of the second. -/
def charListStartsWith : List Char → List Char → Bool
  | [], _ => true
  | _ :: _, [] => false
  | p :: ps, c :: cs => p == c && charListStartsWith ps cs

/-- Whether the pattern occurs contiguously inside the second list. -/
def charListHas (pat : List Char) : List Char → Bool
  | [] => charListStartsWith pat []
  | c :: cs => charListStartsWith pat (c :: cs) || charListHas pat cs

/-- JavaScript substring containment (String.prototype.includes):
strIncludes s pat holds when pat occurs inside s. -/
def strIncludes (s pat : String) : Bool :=
  charListHas pat.data s.data

/-- The TOKEN_THRESHOLDS record (src/unnamed/part_000 lines 1025-1029):
token amounts required for each role tier. -/
structure TokenThresholds where
  CLIENT : ℚ
  FREELANCER : ℚ
  BOOSTED_FREELANCER : ℚ
deriving Repr, DecidableEq

/-- The fixed threshold values: 1K to be a client, 10K to be a
freelancer, 50K for boosted status. -/
def TOKEN_THRESHOLDS : TokenThresholds :=
  { CLIENT := 1000, FREELANCER := 10000, BOOSTED_FREELANCER := 50000 }

/-- The computed identity values exposed by the provider, restricted to
the fields the claims mention. -/
structure ComputedValues where
  isAuthenticated : Bool
  isClient : Bool
  isFreelancer : Bool
  isAdmin : Bool
  canBeClient : Bool
  canBeFreelancer : Bool
  isBoostedFreelancer : Bool
  effectiveRole : Option String
  storedRole : Option String
  isWalletConnected : Bool
  walletAddress : Option String
  tokenBalance : ℚ
  liveTokenBalance : ℚ
deriving Repr, DecidableEq

/-- The effective-role computation inlined in computedValues
(src/unnamed/part_000 lines 1046-1053): the stored role is kept unless
the token-gated access flags force a downgrade. -/
def effectiveRoleOf (storedRole : Option String)
    (canBeClient canBeFreelancer : Bool) : Option String :=
  if storedRole == some "freelancer" && !canBeFreelancer then
    (if canBeClient then some "client" else none)
  else if storedRole == some "client" && !canBeClient then none
  else storedRole

/-- The memoized computedValues block (src/unnamed/part_000 lines
1032-1081), as a pure function of the provider state it reads: the
hosted-auth user (only its presence matters), the profile row, the local
wallet address and the live blockchain balance.  The balance used for
gating prioritizes the live balance when it is positive and otherwise
falls back to the stored token_balance of the profile (or 0). -/
def computedValues (user : Option String) (profile : Option Profile)
    (localWalletAddress : Option String) (liveTokenBalance : ℚ) :
    ComputedValues :=
  let tokenBalance : ℚ :=
    if liveTokenBalance > 0 then liveTokenBalance
    else ((profile.bind Profile.token_balance).getD 0)
  let canBeClient := decide (tokenBalance ≥ TOKEN_THRESHOLDS.CLIENT)
  let canBeFreelancer := decide (tokenBalance ≥ TOKEN_THRESHOLDS.FREELANCER)
  let isBoostedFreelancer :=
    decide (tokenBalance ≥ TOKEN_THRESHOLDS.BOOSTED_FREELANCER)
  let storedRole := profile.bind Profile.user_type
  let effectiveRole := effectiveRoleOf storedRole canBeClient canBeFreelancer
  { isAuthenticated := user.isSome || profile.isSome
    isClient := effectiveRole == some "client" || storedRole == some "admin"
    isFreelancer :=
      effectiveRole == some "freelancer" || storedRole == some "admin"
    isAdmin := storedRole == some "admin"
    canBeClient := canBeClient
    canBeFreelancer := canBeFreelancer
    isBoostedFreelancer := isBoostedFreelancer
    effectiveRole := effectiveRole
    storedRole := storedRole
    isWalletConnected :=
      localWalletAddress.isSome || (profile.bind Profile.wallet_address).isSome
    walletAddress :=
      localWalletAddress.orElse (fun _ => profile.bind Profile.wallet_address)
    tokenBalance := tokenBalance
    liveTokenBalance := liveTokenBalance }

/-- hasMinTokens (src/unnamed/part_000 lines 1084-1086): whether the
computed token balance meets a required threshold. -/
def hasMinTokens (cv : ComputedValues) (required : ℚ) : Bool :=
  decide (cv.tokenBalance ≥ required)

/-- The effective role as the specification phrases it: it equals the
stored role, except that a stored freelancer without canBeFreelancer is
downgraded to client when canBeClient holds and to no role otherwise,
and a stored client without canBeClient is downgraded to no role. -/
def specEffectiveRole (storedRole : Option String)
    (canBeClient canBeFreelancer : Bool) : Option String :=
  if storedRole == some "freelancer" then
    (if canBeFreelancer then storedRole
     else if canBeClient then some "client" else none)
  else if storedRole == some "client" then
    (if canBeClient then storedRole else none)
  else storedRole

/-- The tokenAmount object of a parsed token account
(acc.account.data.parsed.info.tokenAmount): uiAmount may be null, in
which case the code falls back to Number(tokenAmount.uiAmountString);
uiAmountString holds that parsed numeric value. -/
structure TokenAmount where
  uiAmount : Option ℚ
  uiAmountString : ℚ
deriving Repr, DecidableEq

/-- A token account entry of the getTokenAccountsByOwner response,
restricted to the tokenAmount field the code reads. -/
structure TokenAccount where
  tokenAmount : TokenAmount
deriving Repr, DecidableEq

/-- The outcome of the RPC request made by fetchTokenBalance: either
the fetch or the JSON parsing threw, or a response whose
json.result.value token-account list is present or absent. -/
inductive RpcOutcome where
  | failed (e : JsError)
  | response (value : Option (List TokenAccount))
deriving Repr, DecidableEq

/-- The per-account amount fetchTokenBalance accumulates: uiAmount,
falling back to the parsed uiAmountString when uiAmount is null. -/
def accountAmount (acc : TokenAccount) : ℚ :=
  acc.tokenAmount.uiAmount.getD acc.tokenAmount.uiAmountString

/-- fetchTokenBalance (src/unnamed/part_000 lines 66-103) as a function
of the RPC outcome: any thrown error is caught and yields 0, a missing
result value yields 0, and otherwise the per-account amounts are
accumulated with += starting from 0. -/
def fetchTokenBalance : RpcOutcome → ℚ
  | .failed _ => 0
  | .response none => 0
  | .response (some accs) =>
      accs.foldl (fun total acc => total + accountAmount acc) 0

/-- Side effects of the authentication core, recorded as explicit
traces: vendor auth-session creation, cryptographic signature checks,
database reads and writes, browser storage writes, realtime channel
management, timers, wallet and RPC calls. -/
inductive Effect where
  | createSession
  | verifySignature
  | dbWrite (table : String)
  | dbRead (table : String)
  | storageWrite (key : String)
  | removeChannel (name : String)
  | createChannel (name : String)
  | clearBackgroundRetry
  | scheduleBackgroundRetry (delayMs : ℕ)
  | profileFetch (timeoutMs : ℕ)
  | phantomConnect
  | rpcBalanceFetch
deriving Repr, DecidableEq

/-- A pending background profile retry (backgroundRetryRef): the timer
delay, the user whose profile is re-fetched, and the timeout passed to
that fetch. -/
structure BackgroundRetry where
  delayMs : ℕ
  userId : String
  fetchTimeoutMs : ℕ
deriving Repr, DecidableEq

/-- The in-memory React state of the AuthProvider together with the two
refs the channel and retry logic uses, and the list of realtime
channels currently registered with the vendor client by this
component. -/
structure AuthState where
  user : Option String
  profile : Option Profile
  authError : Option JsError
  isLoading : Bool
  isProfileLoading : Bool
  isWalletConnecting : Bool
  localWalletAddress : Option String
  liveTokenBalance : ℚ
  backgroundRetry : Option BackgroundRetry
  profileChannel : Option String
  activeChannels : List String
deriving Repr, DecidableEq

/-- The result object returned by updateProfile. -/
structure UpdateResult where
  data : Option Profile
  error : Option JsError
deriving Repr, DecidableEq

/-- updateProfile (src/unnamed/part_000 lines 658-683): with no
hosted-auth user it returns a null result with a No-user-logged-in
error before touching the database; otherwise it runs the update
(whose outcome is passed in as dbOutcome), stores the returned row in
the profile state on success, and returns the error on failure. -/
def updateProfile (s : AuthState) (dbOutcome : Except JsError Profile) :
    AuthState × UpdateResult × List Effect :=
  match s.user with
  | none =>
      (s,
       { data := none,
         error := some { name := "Error", message := "No user logged in" } },
       [])
  | some _ =>
      match dbOutcome with
      | .ok row =>
          ({ s with profile := some row },
           { data := some row, error := none },
           [Effect.dbWrite "profiles"])
      | .error e =>
          (s, { data := none, error := some e }, [Effect.dbWrite "profiles"])

/-- Whether an error counts as an abort (src/unnamed/part_000 lines
16 and 165): such errors are never retried and fetchProfile swallows
them to null. -/
def isAbortError (e : JsError) : Bool :=
  e.name == "AbortError" || strIncludes e.message "AbortError"

/-- The shouldRetry predicate fetchProfile passes to withRetry
(src/unnamed/part_000 lines 155-158): only network-flavoured failures
are retried. -/
def shouldRetryProfile (e : JsError) : Bool :=
  strIncludes e.message "fetch" || strIncludes e.message "network" ||
    strIncludes e.message "Failed to fetch"

/-- One run of withRetry, as a trace: the final result, the number of
invocations of the wrapped function, and the backoff delays slept
between invocations. -/
structure RetryTrace (α : Type) where
  result : Except JsError α
  attempts : ℕ
  delays : List ℕ

/-- The retry loop of withRetry (src/unnamed/part_000 lines 7-30).
fn gives the outcome of each invocation of the wrapped function by
attempt index; remaining is the number of retries still allowed
(retries - attempt in the source), so the attempt < retries guard of
the source is the remaining > 0 pattern here.  An ok result returns; an
abort error is rethrown at once; otherwise, while retries remain and
shouldRetry accepts the error, a delay of baseDelay * 2 ^ attempt
milliseconds is slept and the loop continues; any other error is
rethrown.  With no retries remaining every error is rethrown, so the
abort check of the source collapses in that case. -/
def withRetryLoop {α : Type} (fn : ℕ → Except JsError α) (baseDelay : ℕ)
    (shouldRetry : JsError → Bool) : ℕ → ℕ → RetryTrace α
  | attempt, 0 =>
    match fn attempt with
    | .ok v => { result := .ok v, attempts := 1, delays := [] }
    | .error e => { result := .error e, attempts := 1, delays := [] }
  | attempt, remaining + 1 =>
    match fn attempt with
    | .ok v => { result := .ok v, attempts := 1, delays := [] }
    | .error e =>
      if isAbortError e then { result := .error e, attempts := 1, delays := [] }
      else if shouldRetry e then
        let rest := withRetryLoop fn baseDelay shouldRetry (attempt + 1) remaining
        { result := rest.result, attempts := rest.attempts + 1,
          delays := baseDelay * 2 ^ attempt :: rest.delays }
      else { result := .error e, attempts := 1, delays := [] }

/-- withRetry (src/unnamed/part_000 lines 7-30): the loop started at
attempt 0 with the full retry budget. -/
def withRetry {α : Type} (fn : ℕ → Except JsError α)
    (retries baseDelay : ℕ) (shouldRetry : JsError → Bool) : RetryTrace α :=
  withRetryLoop fn baseDelay shouldRetry 0 retries

/-- The error object of a failed profiles query: PostgREST code,
message and name. -/
structure SupabaseError where
  code : String
  message : String
  name : String
deriving Repr, DecidableEq

/-- The outcome of one execution of the profiles-by-id query inside
fetchProfile: a row, or an error object. -/
inductive QueryOutcome where
  | row (p : Profile)
  | failure (e : SupabaseError)
deriving Repr, DecidableEq

/-- The fetchFn closure of fetchProfile (src/unnamed/part_000 lines
128-144): a missing-row error (code PGRST116) becomes a null result,
any other error is thrown. -/
def profileFetchFn (query : ℕ → QueryOutcome) (i : ℕ) :
    Except JsError (Option Profile) :=
  match query i with
  | .row p => .ok (some p)
  | .failure e =>
      if e.code == "PGRST116" then .ok none
      else .error { name := e.name, message := e.message }

/-- The default timeout (ms) among the options of fetchProfile. -/
def profileFetchDefaultTimeoutMs : ℕ := 5000

/-- The retried fetch promise of fetchProfile (src/unnamed/part_000
lines 151-160): withRetry over fetchFn with 2 retries, a 1000 ms base
delay and the network-error retry predicate. -/
def profileRetryTrace (query : ℕ → QueryOutcome) :
    RetryTrace (Option Profile) :=
  withRetry (profileFetchFn query) 2 1000 shouldRetryProfile

/-- fetchProfile (src/unnamed/part_000 lines 125-170): the (optionally
retried) query races a timeout promise that rejects with the message
Profile fetch timeout after timeoutMs milliseconds; timeoutWins says which
promise settles first (the model abstracts real time).  Abort errors
are swallowed to a null profile; all other errors propagate. -/
def fetchProfile (query : ℕ → QueryOutcome) (_timeoutMs : ℕ)
    (useRetry : Bool) (timeoutWins : Bool) :
    Except JsError (Option Profile) :=
  let fetchResult :=
    if useRetry then (profileRetryTrace query).result
    else profileFetchFn query 0
  let raced :=
    if timeoutWins then
      Except.error { name := "Error", message := "Profile fetch timeout" }
    else fetchResult
  match raced with
  | .ok v => .ok v
  | .error e => if isAbortError e then .ok none else .error e

/-- The name of the realtime channel subscribeToProfile creates for a
user. -/
def profileChannelName (userId : String) : String :=
  "profile:" ++ userId

/-- subscribeToProfile (src/unnamed/part_000 lines 217-247): any
previously stored channel is removed from the client first, then a new
channel named profile:userId is created, subscribed and stored in
profileSubscriptionRef. -/
def subscribeToProfile (s : AuthState) (userId : String) :
    AuthState × List Effect :=
  let cleanup :=
    match s.profileChannel with
    | some ch =>
        ({ s with activeChannels := s.activeChannels.erase ch },
         [Effect.removeChannel ch])
    | none => (s, [])
  let ch := profileChannelName userId
  ({ cleanup.1 with
      activeChannels := ch :: cleanup.1.activeChannels
      profileChannel := some ch },
   cleanup.2 ++ [Effect.createChannel ch])

/-- The channel cleanup shared by the SIGNED_OUT / USER_DELETED auth
listener branch (src/unnamed/part_000 lines 440-443) and signOut
(lines 632-635): the stored profile channel, when present, is removed
and the ref is cleared. -/
def removeProfileChannel (s : AuthState) : AuthState × List Effect :=
  match s.profileChannel with
  | some ch =>
      ({ s with
          activeChannels := s.activeChannels.erase ch
          profileChannel := none },
       [Effect.removeChannel ch])
  | none => (s, [])

/-- The SIGNED_OUT / USER_DELETED branch of the auth state listener
(src/unnamed/part_000 lines 437-447): the profile channel is removed
and the identity state cleared. -/
def handleSignedOutEvent (s : AuthState) : AuthState × List Effect :=
  let cleaned := removeProfileChannel s
  ({ cleaned.1 with user := none, profile := none, isLoading := false },
   cleaned.2)

/-- signOut (src/unnamed/part_000 lines 629-655): the profile channel
and any pending background retry are cleared first; then the vendor
sign-out runs (its outcome is passed in); on success the identity
state is cleared, on failure the error is returned with the identity
state left as is. -/
def signOut (s : AuthState) (signOutError : Option JsError) :
    AuthState × Option JsError × List Effect :=
  let cleaned := removeProfileChannel s
  let cleared :=
    match cleaned.1.backgroundRetry with
    | some _ => ({ cleaned.1 with backgroundRetry := none },
        [Effect.clearBackgroundRetry])
    | none => (cleaned.1, [])
  match signOutError with
  | some err => (cleared.1, some err, cleaned.2 ++ cleared.2)
  | none =>
      ({ cleared.1 with user := none, profile := none, authError := none },
       none, cleaned.2 ++ cleared.2)

/-- updateAuthState (src/unnamed/part_000 lines 250-326): any pending
background retry is cleared first; with no session user the identity
state is reset; otherwise the user is stored and the profile fetched
(timeout 5000 ms when initial, 10000 ms otherwise; the outcome is
passed in as fetchOutcome).  A successful fetch stores the profile and
subscribes to realtime updates when a row came back; a failure stores
a null profile and, when the error message contains timeout and
background retry is requested, schedules exactly one background retry
3000 ms later whose fetch will use a 15000 ms timeout.  State writes
are skipped when the component is unmounted. -/
def updateAuthState (s : AuthState) (sessionUser : Option String)
    (retryInBackground isInitial : Bool)
    (fetchOutcome : Except JsError (Option Profile)) (mounted : Bool) :
    AuthState × List Effect :=
  let cleared :=
    match s.backgroundRetry with
    | some _ => ({ s with backgroundRetry := none },
        [Effect.clearBackgroundRetry])
    | none => (s, [])
  match sessionUser with
  | none =>
      ({ cleared.1 with user := none, profile := none, authError := none },
       cleared.2)
  | some uid =>
      let s₁ := { cleared.1 with
        user := some uid
        authError := none
        isProfileLoading := true }
      let fetchEff := Effect.profileFetch (if isInitial then 5000 else 10000)
      match fetchOutcome with
      | .ok profileData =>
          if mounted then
            let s₂ := { s₁ with profile := profileData }
            let subbed :=
              match profileData with
              | some _ => subscribeToProfile s₂ uid
              | none => (s₂, [])
            ({ subbed.1 with isProfileLoading := false },
             cleared.2 ++ [fetchEff] ++ subbed.2)
          else (s₁, cleared.2 ++ [fetchEff])
      | .error err =>
          if mounted then
            let s₂ := { s₁ with profile := none }
            if strIncludes err.message "timeout" && retryInBackground then
              ({ s₂ with
                  backgroundRetry := some { delayMs := 3000, userId := uid, fetchTimeoutMs := 15000 }
                  isProfileLoading := false },
               cleared.2 ++ [fetchEff, Effect.scheduleBackgroundRetry 3000])
            else ({ s₂ with isProfileLoading := false },
              cleared.2 ++ [fetchEff])
          else (s₁, cleared.2 ++ [fetchEff])

/-- The background retry callback scheduled by updateAuthState
(src/unnamed/part_000 lines 300-318): when the component is still
mounted it re-fetches the profile with a 15000 ms timeout, and on a
non-null result stores the profile and subscribes to realtime
updates. -/
def runBackgroundRetry (s : AuthState) (userId : String)
    (fetchOutcome : Except JsError (Option Profile)) (mounted : Bool) :
    AuthState × List Effect :=
  if mounted then
    match fetchOutcome with
    | .ok (some p) =>
        let subbed := subscribeToProfile { s with profile := some p } userId
        (subbed.1, Effect.profileFetch 15000 :: subbed.2)
    | .ok none => (s, [Effect.profileFetch 15000])
    | .error _ => (s, [Effect.profileFetch 15000])
  else (s, [])

/-- A Phantom wallet error: its numeric code (4001 is user rejection)
and message. -/
structure PhantomError where
  code : Option ℤ
  message : String
deriving Repr, DecidableEq

/-- The catch branch of connectWallet (src/unnamed/part_000 lines
814-829): code 4001 becomes a rejection error, an Unexpected-error
message becomes a reinstall hint, anything else is returned as is
(modelled by its message). -/
def mapPhantomConnectError (e : PhantomError) : JsError :=
  if e.code == some 4001 then
    { name := "Error", message := "Connection rejected by user" }
  else if strIncludes e.message "Unexpected error" then
    { name := "Error", message := "Phantom extension error - try reinstalling" }
  else { name := "Error", message := e.message }

/-- The environment a wallet connection runs against: whether the
Phantom extension is present, the outcome of phantom.connect, the
balance fetchTokenBalance returns (it is total), the outcome of the
profiles-by-wallet lookup, and the outcome of the database update
connectWallet performs for an email-logged-in user without a wallet
profile. -/
structure WalletEnv where
  phantomInstalled : Bool
  connectOutcome : Except PhantomError String
  fetchedBalance : ℚ
  profileLookup : Except JsError (Option Profile)
  walletUpdateOutcome : Except JsError Profile

/-- The result object of connectWallet; fields the source leaves
undefined on the error paths are modelled as none / false / 0. -/
structure ConnectResult where
  address : Option String
  profile : Option Profile
  profileExists : Bool
  tokenBalance : ℚ
  error : Option JsError

/-- connectWallet (src/unnamed/part_000 lines 764-830): connect to
Phantom, store the address, fetch the live token balance, look up an
existing profile by wallet address (a thrown lookup error is swallowed
to null), and, when an email user is logged in without a wallet
profile, write the wallet address to their profile row. -/
def connectWallet (s : AuthState) (env : WalletEnv) :
    AuthState × ConnectResult × List Effect :=
  let s₀ := { s with isWalletConnecting := true }
  if env.phantomInstalled then
    match env.connectOutcome with
    | .error e =>
        ({ s₀ with isWalletConnecting := false },
         { address := none, profile := none, profileExists := false,
           tokenBalance := 0, error := some (mapPhantomConnectError e) },
         [Effect.phantomConnect])
    | .ok address =>
        let s₁ := { s₀ with localWalletAddress := some address }
        let balance := env.fetchedBalance
        let s₂ := { s₁ with liveTokenBalance := balance }
        let existingProfile :=
          match env.profileLookup with
          | .ok p => p
          | .error _ => none
        let updated :=
          if s₂.user.isSome && existingProfile.isNone then
            let r := updateProfile s₂ env.walletUpdateOutcome
            (r.1, r.2.2)
          else (s₂, [])
        ({ updated.1 with isWalletConnecting := false },
         { address := some address, profile := existingProfile,
           profileExists := existingProfile.isSome, tokenBalance := balance,
           error := none },
         [Effect.phantomConnect, Effect.rpcBalanceFetch,
           Effect.dbRead "profiles"] ++ updated.2)
  else
    ({ s₀ with isWalletConnecting := false },
     { address := none, profile := none, profileExists := false,
       tokenBalance := 0,
       error := some { name := "Error", message := "Phantom wallet not installed" } },
     [])

/-- The data object signInWithWallet returns. -/
structure SignInWalletData where
  profile : Option Profile
  address : Option String
  isNewUser : Bool
deriving Repr, DecidableEq

/-- The result object signInWithWallet returns. -/
structure SignInWalletResult where
  data : Option SignInWalletData
  error : Option JsError

/-- signInWithWallet (src/unnamed/part_000 lines 846-899): connect the
wallet; on a connection error report it; when a profile row matches
the wallet address, store it as the current profile (a soft login with
no hosted-auth session and no signature verification) and return it
with isNewUser false; when no row matches, return isNewUser true with
a null profile. -/
def signInWithWallet (s : AuthState) (env : WalletEnv) :
    AuthState × SignInWalletResult × List Effect :=
  let s₀ := { s with authError := none, isWalletConnecting := true }
  let conn := connectWallet s₀ env
  match conn.2.1.error with
  | some ce =>
      ({ conn.1 with authError := some ce, isWalletConnecting := false },
       { data := none, error := some ce }, conn.2.2)
  | none =>
      match conn.2.1.address with
      | none =>
          let e : JsError :=
            { name := "Error", message := "No wallet address received" }
          ({ conn.1 with authError := some e, isWalletConnecting := false },
           { data := none, error := some e }, conn.2.2)
      | some address =>
          match conn.2.1.profile with
          | some walletProfile =>
              let d : SignInWalletData :=
                { profile := some walletProfile, address := some address,
                  isNewUser := false }
              ({ conn.1 with
                  profile := some walletProfile
                  isWalletConnecting := false },
               { data := some d, error := none },
               conn.2.2)
          | none =>
              let d : SignInWalletData :=
                { profile := none, address := some address, isNewUser := true }
              ({ conn.1 with isWalletConnecting := false },
               { data := some d, error := none },
               conn.2.2)

/-- The auth options passed to createClient in src/src/lib/supabase.js
(lines 51-61). -/
structure SupabaseAuthOptions where
  autoRefreshToken : Bool
  persistSession : Bool
  detectSessionInUrl : Bool
  storageKey : String
deriving Repr, DecidableEq

/-- The configuration the repository passes to the hosted-auth client:
sessions are persisted under the storage key pumpwork-auth. -/
def supabaseAuthOptions : SupabaseAuthOptions :=
  { autoRefreshToken := true, persistSession := true,
    detectSessionInUrl := true, storageKey := "pumpwork-auth" }

/-- Browser storage contents after the hosted-auth vendor client saves
a session under the given options: with persistSession enabled the
session is written to durable storage under storageKey — the vendor
contract selected by createClient in src/src/lib/supabase.js. -/
def vendorSessionStorage (opts : SupabaseAuthOptions)
    (sessionJson : String) : List (String × String) :=
  if opts.persistSession then [(opts.storageKey, sessionJson)] else []

/-- The initial provider state (src/unnamed/part_000 lines 107-122):
no user, no profile, loading, no wallet, zero balance, no pending
retry, no channel. -/
def initialAuthState : AuthState :=
  { user := none, profile := none, authError := none, isLoading := true,
    isProfileLoading := false, isWalletConnecting := false,
    localWalletAddress := none, liveTokenBalance := 0,
    backgroundRetry := none, profileChannel := none, activeChannels := [] }

/-- The channel bookkeeping invariant: the channels this component has
active at the vendor client are exactly the one stored in
profileSubscriptionRef (if any). -/
def ChannelInv (s : AuthState) : Prop :=
  s.activeChannels = s.profileChannel.toList

/-- A sample profile row used to instantiate theorems at concrete
inputs. -/
def sampleProfile : Profile :=
  { id := "p1", wallet_address := some "w1", token_balance := some 1000,
    user_type := some "client" }

/-- A sample wallet environment whose profile lookup finds
sampleProfile. -/
def sampleWalletEnv : WalletEnv :=
  { phantomInstalled := true, connectOutcome := .ok "w1", fetchedBalance := 0,
    profileLookup := .ok (some sampleProfile),
    walletUpdateOutcome := .error { name := "Error", message := "unused" } }

/-- C1, counterexample: the access flags are not always derived from the
fetched on-chain balance.  With a fetched (live) on-chain balance of 0
and a profile whose stored token_balance is 1000, the code sets
canBeClient even though the fetched balance is below the client
threshold. -/
theorem c1_counterexample :
    (computedValues none
      (some { id := "p1", wallet_address := some "w1",
              token_balance := some 1000, user_type := some "client" })
      (some "w1") 0).canBeClient = true ∧
    ¬ ((0 : ℚ) ≥ TOKEN_THRESHOLDS.CLIENT) := by
  constructor
  · decide
  · rw [TOKEN_THRESHOLDS]; norm_num

/-- C1, amended: the token-gated access flags compare the effective
balance — the live on-chain balance when it is positive, otherwise the
stored token_balance of the profile (or 0) — against the fixed thresholds:
canBeClient iff that balance is at least 1000, canBeFreelancer iff at
least 10000, isBoostedFreelancer iff at least 50000. -/
theorem c1_token_gates (user : Option String) (profile : Option Profile)
    (lwa : Option String) (live : ℚ) :
    (computedValues user profile lwa live).tokenBalance =
      (if live > 0 then live
       else (profile.bind Profile.token_balance).getD 0) ∧
    (computedValues user profile lwa live).canBeClient =
      decide ((computedValues user profile lwa live).tokenBalance ≥ 1000) ∧
    (computedValues user profile lwa live).canBeFreelancer =
      decide ((computedValues user profile lwa live).tokenBalance ≥ 10000) ∧
    (computedValues user profile lwa live).isBoostedFreelancer =
      decide ((computedValues user profile lwa live).tokenBalance ≥ 50000) := by
  refine ⟨rfl, ?_, ?_, ?_⟩ <;> simp [computedValues, TOKEN_THRESHOLDS]

/-- The inline effective-role computation agrees with the
phrasing used by the specification, for every stored role and pair of access
flags. -/
theorem effectiveRoleOf_eq_spec (s : Option String) (cc cf : Bool) :
    effectiveRoleOf s cc cf = specEffectiveRole s cc cf := by
  cases cc <;> cases cf <;>
    by_cases hf : s = some "freelancer" <;>
    by_cases hc : s = some "client" <;>
    simp_all [effectiveRoleOf, specEffectiveRole]

/-- C2: the effective role is a pure function of the profile and the
balance (independent of the hosted-auth user and the raw wallet
address); it equals the stored role except for the freelancer and
client downgrades described by the spec; and a stored admin always
grants isClient, isFreelancer and isAdmin. -/
theorem c2_effective_role (user : Option String) (profile : Option Profile)
    (lwa : Option String) (live : ℚ) :
    (computedValues user profile lwa live).effectiveRole =
      specEffectiveRole (profile.bind Profile.user_type)
        (computedValues user profile lwa live).canBeClient
        (computedValues user profile lwa live).canBeFreelancer ∧
    (∀ user₂ lwa₂,
      (computedValues user₂ profile lwa₂ live).effectiveRole =
        (computedValues user profile lwa live).effectiveRole) ∧
    (profile.bind Profile.user_type = some "admin" →
      (computedValues user profile lwa live).isClient = true ∧
      (computedValues user profile lwa live).isFreelancer = true ∧
      (computedValues user profile lwa live).isAdmin = true) := by
  refine ⟨effectiveRoleOf_eq_spec _ _ _, fun user₂ lwa₂ => rfl,
    fun hadmin => ?_⟩
  simp [computedValues, hadmin]

/-- C2 witness: a stored admin profile with zero balance still gets
isClient, isFreelancer and isAdmin. -/
theorem c2_witness :
    (computedValues none
      (some { id := "a1", wallet_address := none,
              token_balance := none, user_type := some "admin" })
      none 0).isClient = true ∧
    (computedValues none
      (some { id := "a1", wallet_address := none,
              token_balance := none, user_type := some "admin" })
      none 0).isFreelancer = true ∧
    (computedValues none
      (some { id := "a1", wallet_address := none,
              token_balance := none, user_type := some "admin" })
      none 0).isAdmin = true :=
  (c2_effective_role none
    (some { id := "a1", wallet_address := none,
            token_balance := none, user_type := some "admin" })
    none 0).2.2 rfl

/-- C8: the role tiers are nested — isBoostedFreelancer implies
canBeFreelancer, canBeFreelancer implies canBeClient — and
hasMinTokens is antitone in the required threshold. -/
theorem c8_role_tiers (user : Option String) (profile : Option Profile)
    (lwa : Option String) (live : ℚ) (r r₂ : ℚ)
    (hrr : r₂ ≤ r)
    (hmin : hasMinTokens (computedValues user profile lwa live) r = true) :
    hasMinTokens (computedValues user profile lwa live) r₂ = true ∧
    ((computedValues user profile lwa live).isBoostedFreelancer = true →
      (computedValues user profile lwa live).canBeFreelancer = true) ∧
    ((computedValues user profile lwa live).canBeFreelancer = true →
      (computedValues user profile lwa live).canBeClient = true) := by
  simp only [hasMinTokens, computedValues, TOKEN_THRESHOLDS,
    decide_eq_true_eq] at *
  exact ⟨le_trans hrr hmin,
    fun hb => le_trans (by norm_num) hb,
    fun hf => le_trans (by norm_num) hf⟩

/-- C8 witness at a live balance of 50000 and thresholds 10000 ≥ 1000. -/
theorem c8_witness :
    hasMinTokens (computedValues none none none 50000) 1000 = true ∧
    ((computedValues none none none 50000).isBoostedFreelancer = true →
      (computedValues none none none 50000).canBeFreelancer = true) ∧
    ((computedValues none none none 50000).canBeFreelancer = true →
      (computedValues none none none 50000).canBeClient = true) :=
  c8_role_tiers none none none 50000 10000 1000 (by norm_num) (by decide)

/-- Folding the running += accumulation equals the sum of the mapped
amounts. -/
theorem foldl_add_eq_sum (f : TokenAccount → ℚ) (accs : List TokenAccount) :
    ∀ a : ℚ, accs.foldl (fun total acc => total + f acc) a =
      a + (accs.map f).sum := by
  induction accs with
  | nil => intro a; simp
  | cons x xs ih => intro a; simp [ih, add_assoc]

/-- C9: fetchTokenBalance is total over its modelled inputs — a thrown
request or parsing error yields 0, a response without a result value
yields 0, and a response with token accounts yields the sum of their
uiAmount values, with the parsed uiAmountString as fallback when
uiAmount is absent. -/
theorem c9_fetchTokenBalance_total :
    (∀ e, fetchTokenBalance (.failed e) = 0) ∧
    fetchTokenBalance (.response none) = 0 ∧
    (∀ accs, fetchTokenBalance (.response (some accs)) =
      (accs.map accountAmount).sum) := by
  refine ⟨fun e => rfl, rfl, fun accs => ?_⟩
  simpa using foldl_add_eq_sum accountAmount accs 0

/-- C10: whenever the hosted-auth user is null — including a soft-login
identity whose wallet-matched profile makes isAuthenticated true —
updateProfile returns a null result with a No-user-logged-in error,
performs no database write, and leaves the whole state (in particular
the profile) unchanged. -/
theorem c10_updateProfile_no_user (s : AuthState)
    (dbOutcome : Except JsError Profile) (hu : s.user = none) :
    (updateProfile s dbOutcome).1 = s ∧
    (updateProfile s dbOutcome).2.1.data = none ∧
    (updateProfile s dbOutcome).2.1.error =
      some { name := "Error", message := "No user logged in" } ∧
    (updateProfile s dbOutcome).2.2 = [] ∧
    (∀ p, s.profile = some p →
      (computedValues s.user s.profile s.localWalletAddress
        s.liveTokenBalance).isAuthenticated = true) := by
  refine ⟨?_, ?_, ?_, ?_, fun p hp => ?_⟩
  · simp [updateProfile, hu]
  · simp [updateProfile, hu]
  · simp [updateProfile, hu]
  · simp [updateProfile, hu]
  · simp [computedValues, hp]

/-- C10 witness: a concrete soft-login state (no user, wallet-matched
profile) at which updateProfile rejects without effects. -/
theorem c10_witness :
    (updateProfile
      { user := none,
        profile := some { id := "p1", wallet_address := some "w1",
                          token_balance := some 10000,
                          user_type := some "freelancer" },
        authError := none, isLoading := false, isProfileLoading := false,
        isWalletConnecting := false, localWalletAddress := some "w1",
        liveTokenBalance := 10000, backgroundRetry := none,
        profileChannel := none, activeChannels := [] }
      (.ok { id := "p1", wallet_address := some "w1",
             token_balance := some 10000,
             user_type := some "freelancer" })).2.2 = [] ∧
    (updateProfile
      { user := none,
        profile := some { id := "p1", wallet_address := some "w1",
                          token_balance := some 10000,
                          user_type := some "freelancer" },
        authError := none, isLoading := false, isProfileLoading := false,
        isWalletConnecting := false, localWalletAddress := some "w1",
        liveTokenBalance := 10000, backgroundRetry := none,
        profileChannel := none, activeChannels := [] }
      (.ok { id := "p1", wallet_address := some "w1",
             token_balance := some 10000,
             user_type := some "freelancer" })).2.1.data = none :=
  ⟨(c10_updateProfile_no_user _ _ rfl).2.2.2.1,
   (c10_updateProfile_no_user _ _ rfl).2.1⟩

/-- The retry loop always invokes the wrapped function at least once. -/
theorem withRetryLoop_attempts_pos {α : Type} (fn : ℕ → Except JsError α)
    (b : ℕ) (sr : JsError → Bool) :
    ∀ rem a, 1 ≤ (withRetryLoop fn b sr a rem).attempts := by
  intro rem
  induction rem with
  | zero =>
      intro a
      rcases hfa : fn a with v | e <;> simp [withRetryLoop, hfa]
  | succ rem₂ ih =>
      intro a
      rcases hfa : fn a with e | v
      · simp only [withRetryLoop, hfa]
        split_ifs <;> simp
      · simp [withRetryLoop, hfa]

/-- The retry loop makes at most remaining + 1 invocations. -/
theorem withRetryLoop_attempts_le {α : Type} (fn : ℕ → Except JsError α)
    (b : ℕ) (sr : JsError → Bool) :
    ∀ rem a, (withRetryLoop fn b sr a rem).attempts ≤ rem + 1 := by
  intro rem
  induction rem with
  | zero =>
      intro a
      rcases hfa : fn a with v | e <;> simp [withRetryLoop, hfa]
  | succ rem₂ ih =>
      intro a
      rcases hfa : fn a with e | v
      · simp only [withRetryLoop, hfa]
        split_ifs with hab hsr
        · simp
        · have h := ih (a + 1)
          simp
          omega
        · simp
      · simp [withRetryLoop, hfa]

/-- The backoff delays of a retry-loop run are exactly
baseDelay * 2 ^ attempt for the attempts that were retried. -/
theorem withRetryLoop_delays {α : Type} (fn : ℕ → Except JsError α)
    (b : ℕ) (sr : JsError → Bool) :
    ∀ rem a, (withRetryLoop fn b sr a rem).delays =
      (List.range ((withRetryLoop fn b sr a rem).attempts - 1)).map
        (fun i => b * 2 ^ (a + i)) := by
  intro rem
  induction rem with
  | zero =>
      intro a
      rcases hfa : fn a with v | e <;> simp [withRetryLoop, hfa]
  | succ rem₂ ih =>
      intro a
      rcases hfa : fn a with e | v
      · simp only [withRetryLoop, hfa]
        split_ifs with hab hsr
        · simp
        · have hpos := withRetryLoop_attempts_pos fn b sr rem₂ (a + 1)
          obtain ⟨n, hn⟩ : ∃ n,
              (withRetryLoop fn b sr (a + 1) rem₂).attempts = n + 1 :=
            ⟨(withRetryLoop fn b sr (a + 1) rem₂).attempts - 1, by omega⟩
          simp only [ih (a + 1), hn, Nat.add_sub_cancel,
            List.range_succ_eq_map, List.map_cons, List.map_map]
          congr 1
          apply List.map_congr_left
          intro i _
          have hexp : a + 1 + i = a + (i + 1) := by omega
          simp [Function.comp, hexp]
        · simp
      · simp [withRetryLoop, hfa]

/-- A further invocation happens only after a non-abort error accepted
by the retry predicate. -/
theorem withRetryLoop_retry_reason {α : Type} (fn : ℕ → Except JsError α)
    (b : ℕ) (sr : JsError → Bool) :
    ∀ rem a i, a ≤ i →
      i + 1 < a + (withRetryLoop fn b sr a rem).attempts →
      ∃ e, fn i = .error e ∧ isAbortError e = false ∧ sr e = true := by
  intro rem
  induction rem with
  | zero =>
      intro a i hai hlt
      have := withRetryLoop_attempts_le fn b sr 0 a
      omega
  | succ rem₂ ih =>
      intro a i hai hlt
      rcases hfa : fn a with e | v
      · simp only [withRetryLoop, hfa] at hlt
        by_cases hab : isAbortError e
        · simp [hab] at hlt
          omega
        · by_cases hsr : sr e
          · rcases hai.lt_or_eq with hlt₂ | heq
            · refine ih (a + 1) i hlt₂ ?_
              simp [hab, hsr] at hlt
              omega
            · subst heq
              exact ⟨e, hfa, by simp [hab], hsr⟩
          · simp [hab, hsr] at hlt
            omega
      · simp [withRetryLoop, hfa] at hlt
        omega

/-- C4: fetchProfile runs the query at most 3 times, with backoff
delays of 1000 * 2 ^ attempt milliseconds; it retries only errors
whose message contains fetch, network or Failed to fetch; an abort
result is swallowed to a null profile; the race rejects with the
message Profile fetch timeout when the timeout (5000 ms by default) wins; and a
missing-row error (code PGRST116) yields a null profile rather than an
error. -/
theorem c4_fetchProfile_retry (query : ℕ → QueryOutcome) (tm : ℕ) :
    (profileRetryTrace query).attempts ≤ 3 ∧
    (profileRetryTrace query).delays =
      (List.range ((profileRetryTrace query).attempts - 1)).map
        (fun i => 1000 * 2 ^ i) ∧
    (∀ i, i + 1 < (profileRetryTrace query).attempts →
      ∃ e, profileFetchFn query i = .error e ∧ isAbortError e = false ∧
        shouldRetryProfile e = true) ∧
    (∀ e, (profileRetryTrace query).result = .error e →
      isAbortError e = true →
      fetchProfile query tm true false = .ok none) ∧
    fetchProfile query tm true true =
      .error { name := "Error", message := "Profile fetch timeout" } ∧
    profileFetchDefaultTimeoutMs = 5000 ∧
    (∀ er, query 0 = .failure er → er.code = "PGRST116" →
      fetchProfile query tm true false = .ok none) := by
  refine ⟨?_, ?_, ?_, ?_, ?_, rfl, ?_⟩
  · exact withRetryLoop_attempts_le _ _ _ 2 0
  · simpa using withRetryLoop_delays (profileFetchFn query) 1000
      shouldRetryProfile 2 0
  · intro i hi
    refine withRetryLoop_retry_reason (profileFetchFn query) 1000
      shouldRetryProfile 2 0 i (Nat.zero_le i) ?_
    have hi₂ : i + 1 <
        (withRetryLoop (profileFetchFn query) 1000 shouldRetryProfile 0
          2).attempts := by
      simpa [profileRetryTrace, withRetry] using hi
    omega
  · intro e hres hab
    simp [fetchProfile, hres, hab]
  · have : isAbortError { name := "Error", message := "Profile fetch timeout" }
        = false := by decide
    simp [fetchProfile, this]
  · intro er hq hcode
    have hfn : profileFetchFn query 0 = .ok none := by
      simp [profileFetchFn, hq, hcode]
    have hres : (profileRetryTrace query).result = .ok none := by
      simp [profileRetryTrace, withRetry, withRetryLoop, hfn]
    simp [fetchProfile, hres]

/-- C4 witness: a query that is missing its row (PGRST116) yields a
null profile without an error. -/
theorem c4_witness :
    fetchProfile
      (fun _ => QueryOutcome.failure
        { code := "PGRST116", message := "0 rows", name := "PostgrestError" })
      5000 true false = .ok none :=
  (c4_fetchProfile_retry
    (fun _ => QueryOutcome.failure
      { code := "PGRST116", message := "0 rows", name := "PostgrestError" })
    5000).2.2.2.2.2.2 _ rfl rfl

/-- C3: soft login.  With no hosted-auth user, a wallet connection
whose address has a matching profile row makes signInWithWallet store
that row as the current profile and return it with isNewUser false —
with no session creation, no signature verification and no database
write — and the resulting identity is authenticated while the user is
still null; with no matching row it returns isNewUser true with a
null profile and the identity is not authenticated. -/
theorem c3_soft_login (s : AuthState) (env : WalletEnv) (a : String)
    (hu : s.user = none)
    (hph : env.phantomInstalled = true)
    (hconn : env.connectOutcome = .ok a) :
    (∀ row, env.profileLookup = .ok (some row) →
      (signInWithWallet s env).1.profile = some row ∧
      (signInWithWallet s env).1.user = none ∧
      (signInWithWallet s env).2.1.data =
        some { profile := some row, address := some a, isNewUser := false } ∧
      (signInWithWallet s env).2.1.error = none ∧
      Effect.createSession ∉ (signInWithWallet s env).2.2 ∧
      Effect.verifySignature ∉ (signInWithWallet s env).2.2 ∧
      (∀ t, Effect.dbWrite t ∉ (signInWithWallet s env).2.2) ∧
      (computedValues (signInWithWallet s env).1.user
          (signInWithWallet s env).1.profile
          (signInWithWallet s env).1.localWalletAddress
          (signInWithWallet s env).1.liveTokenBalance).isAuthenticated
        = true) ∧
    (env.profileLookup = .ok none → s.profile = none →
      (signInWithWallet s env).1.profile = none ∧
      (signInWithWallet s env).2.1.data =
        some { profile := none, address := some a, isNewUser := true } ∧
      (signInWithWallet s env).2.1.error = none ∧
      (computedValues (signInWithWallet s env).1.user
          (signInWithWallet s env).1.profile
          (signInWithWallet s env).1.localWalletAddress
          (signInWithWallet s env).1.liveTokenBalance).isAuthenticated
        = false) := by
  constructor
  · intro row hrow
    simp [signInWithWallet, connectWallet, hph, hconn, hrow, hu,
      computedValues]
  · intro hnone hprof
    simp [signInWithWallet, connectWallet, hph, hconn, hnone, hu, hprof,
      computedValues]

/-- C3 witness: a concrete signed-out state and environment in which
the wallet lookup finds a profile row. -/
theorem c3_witness :
    (signInWithWallet initialAuthState sampleWalletEnv).1.profile =
      some sampleProfile ∧
    (signInWithWallet initialAuthState sampleWalletEnv).1.user = none :=
  ⟨((c3_soft_login initialAuthState sampleWalletEnv "w1" rfl rfl rfl).1
      sampleProfile rfl).1,
   ((c3_soft_login initialAuthState sampleWalletEnv "w1" rfl rfl rfl).1
      sampleProfile rfl).2.1⟩

/-- C5: when the profile fetch of updateAuthState fails with a timeout and
background retry is enabled, the profile is set to null and exactly
one background retry is scheduled, 3000 ms later, whose fetch will use
a 15000 ms timeout; a background retry that returns a profile row
stores it and creates the realtime subscription; and a pending
background retry is always cancelled first on a new updateAuthState
run. -/
theorem c5_background_retry (s : AuthState) (uid : String) (err : JsError)
    (ini : Bool) (htm : strIncludes err.message "timeout" = true) :
    ((updateAuthState s (some uid) true ini (.error err) true).1.profile
        = none ∧
     (updateAuthState s (some uid) true ini (.error err) true).1.backgroundRetry
        = some { delayMs := 3000, userId := uid, fetchTimeoutMs := 15000 } ∧
     ((updateAuthState s (some uid) true ini (.error err) true).2.count
        (Effect.scheduleBackgroundRetry 3000)) = 1 ∧
     (∀ d, Effect.scheduleBackgroundRetry d ∈
        (updateAuthState s (some uid) true ini (.error err) true).2 →
        d = 3000)) ∧
    (∀ s₂ p,
      (runBackgroundRetry s₂ uid (.ok (some p)) true).1.profile = some p ∧
      (runBackgroundRetry s₂ uid (.ok (some p)) true).1.profileChannel =
        some (profileChannelName uid) ∧
      Effect.createChannel (profileChannelName uid) ∈
        (runBackgroundRetry s₂ uid (.ok (some p)) true).2 ∧
      Effect.profileFetch 15000 ∈
        (runBackgroundRetry s₂ uid (.ok (some p)) true).2) ∧
    (∀ s₃ su rib ini₂ fo m, s₃.backgroundRetry.isSome = true →
      (updateAuthState s₃ su rib ini₂ fo m).2.head? =
        some Effect.clearBackgroundRetry) := by
  refine ⟨⟨?_, ?_, ?_, ?_⟩, fun s₂ p => ⟨?_, ?_, ?_, ?_⟩, ?_⟩
  · rcases hbr : s.backgroundRetry with _ | b <;>
      simp [updateAuthState, hbr, htm]
  · rcases hbr : s.backgroundRetry with _ | b <;>
      simp [updateAuthState, hbr, htm]
  · rcases hbr : s.backgroundRetry with _ | b <;>
      cases ini <;> simp [updateAuthState, hbr, htm]
  · intro d hd
    rcases hbr : s.backgroundRetry with _ | b <;>
      cases ini <;> simp [updateAuthState, hbr, htm] at hd <;> omega
  · rcases hpc : s₂.profileChannel with _ | ch <;>
      simp [runBackgroundRetry, subscribeToProfile, hpc]
  · rcases hpc : s₂.profileChannel with _ | ch <;>
      simp [runBackgroundRetry, subscribeToProfile, hpc]
  · rcases hpc : s₂.profileChannel with _ | ch <;>
      simp [runBackgroundRetry, subscribeToProfile, hpc]
  · rcases hpc : s₂.profileChannel with _ | ch <;>
      simp [runBackgroundRetry, subscribeToProfile, hpc]
  · intro s₃ su rib ini₂ fo m hsome
    obtain ⟨b, hb⟩ := Option.isSome_iff_exists.mp hsome
    rcases su with _ | uid₂
    · simp [updateAuthState, hb]
    · rcases fo with e₂ | pd
      · cases m <;> simp [updateAuthState, hb] <;> split_ifs <;> simp
      · rcases pd with _ | p₂ <;> cases m <;>
          simp [updateAuthState, hb, subscribeToProfile]

/-- C5 witness: a timed-out initial fetch at a concrete state leaves a
null profile and a scheduled 3000 ms retry with a 15000 ms fetch
timeout. -/
theorem c5_witness :
    (updateAuthState initialAuthState (some "u1") true true
      (.error { name := "Error", message := "Profile fetch timeout" })
      true).1.profile = none ∧
    (updateAuthState initialAuthState (some "u1") true true
      (.error { name := "Error", message := "Profile fetch timeout" })
      true).1.backgroundRetry =
      some { delayMs := 3000, userId := "u1", fetchTimeoutMs := 15000 } :=
  ⟨(c5_background_retry initialAuthState "u1"
      { name := "Error", message := "Profile fetch timeout" } true
      (by decide)).1.1,
   (c5_background_retry initialAuthState "u1"
      { name := "Error", message := "Profile fetch timeout" } true
      (by decide)).1.2.1⟩

/-- subscribeToProfile preserves the channel bookkeeping invariant and
leaves exactly the newly created channel active. -/
theorem subscribeToProfile_inv (s : AuthState) (uid : String)
    (h : ChannelInv s) :
    ChannelInv (subscribeToProfile s uid).1 ∧
    (subscribeToProfile s uid).1.activeChannels =
      [profileChannelName uid] := by
  rcases hpc : s.profileChannel with _ | ch <;>
    simp [ChannelInv, subscribeToProfile, hpc] at h ⊢ <;>
      simp [h]

/-- The shared channel cleanup preserves the invariant and leaves no
active channel. -/
theorem removeProfileChannel_inv (s : AuthState) (h : ChannelInv s) :
    ChannelInv (removeProfileChannel s).1 ∧
    (removeProfileChannel s).1.activeChannels = [] := by
  rcases hpc : s.profileChannel with _ | ch <;>
    simp [ChannelInv, removeProfileChannel, hpc] at h ⊢ <;>
      simp [h]

/-- C7: at most one profile realtime channel is active.  The channel
bookkeeping invariant — the active channels are exactly the one stored
in profileSubscriptionRef — holds initially, bounds the number of
active channels by one, and is preserved by subscribeToProfile (which
removes any stored channel before creating a new one), by the
SIGNED_OUT / USER_DELETED handler and signOut (which remove the
channel, leaving none active), and by updateAuthState and the
background retry. -/
theorem c7_single_channel (s : AuthState) (h : ChannelInv s) :
    s.activeChannels.length ≤ 1 ∧
    ChannelInv initialAuthState ∧
    (∀ uid, ChannelInv (subscribeToProfile s uid).1) ∧
    (ChannelInv (handleSignedOutEvent s).1 ∧
      (handleSignedOutEvent s).1.activeChannels = []) ∧
    (∀ so, ChannelInv (signOut s so).1 ∧
      (signOut s so).1.activeChannels = []) ∧
    (∀ su rib ini fo m, ChannelInv (updateAuthState s su rib ini fo m).1) ∧
    (∀ uid fo m, ChannelInv (runBackgroundRetry s uid fo m).1) := by
  refine ⟨?_, rfl, fun uid => (subscribeToProfile_inv s uid h).1,
    ?_, fun so => ?_, fun su rib ini fo m => ?_, fun uid fo m => ?_⟩
  · rw [ChannelInv] at h
    rcases hpc : s.profileChannel with _ | ch <;> simp [hpc] at h <;>
      simp [h]
  · have hr := removeProfileChannel_inv s h
    constructor
    · simpa [ChannelInv, handleSignedOutEvent] using hr.1
    · simpa [handleSignedOutEvent] using hr.2
  · have hr := removeProfileChannel_inv s h
    rcases hbr : (removeProfileChannel s).1.backgroundRetry with _ | b <;>
      rcases so with _ | e <;>
        constructor <;>
          simp [ChannelInv, signOut, hbr] <;>
            first
              | simpa [ChannelInv] using hr.1
              | simpa using hr.2
  · rcases hbr : s.backgroundRetry with _ | b <;> rcases su with _ | uid
    · simpa [updateAuthState, hbr, ChannelInv] using h
    · rcases fo with e | pd
      · cases m <;> simp [updateAuthState, hbr, ChannelInv] <;>
          first
            | (split_ifs <;> simpa [ChannelInv] using h)
            | simpa [ChannelInv] using h
      · rcases pd with _ | p <;> cases m <;>
          simp [updateAuthState, hbr, ChannelInv] <;>
          first
            | simpa [ChannelInv] using h
            | simpa [ChannelInv] using
                (subscribeToProfile_inv _ uid (by simpa [ChannelInv] using h)).1
    · simpa [updateAuthState, hbr, ChannelInv] using h
    · rcases fo with e | pd
      · cases m <;> simp [updateAuthState, hbr, ChannelInv] <;>
          first
            | (split_ifs <;> simpa [ChannelInv] using h)
            | simpa [ChannelInv] using h
      · rcases pd with _ | p <;> cases m <;>
          simp [updateAuthState, hbr, ChannelInv] <;>
          first
            | simpa [ChannelInv] using h
            | simpa [ChannelInv] using
                (subscribeToProfile_inv _ uid (by simpa [ChannelInv] using h)).1
  · rcases fo with e | pd
    · cases m <;> simp [runBackgroundRetry, ChannelInv] <;>
        simpa [ChannelInv] using h
    · rcases pd with _ | p <;> cases m <;>
        simp [runBackgroundRetry, ChannelInv] <;>
        first
          | simpa [ChannelInv] using h
          | simpa [ChannelInv] using
              (subscribeToProfile_inv _ uid (by simpa [ChannelInv] using h)).1

/-- C7 witness: the invariant discharged at the initial state. -/
theorem c7_witness :
    initialAuthState.activeChannels.length ≤ 1 ∧
    (handleSignedOutEvent initialAuthState).1.activeChannels = [] :=
  ⟨(c7_single_channel initialAuthState rfl).1,
   (c7_single_channel initialAuthState rfl).2.2.2.1.2⟩

/-- C6, counterexample: the repository configures the hosted-auth
client with persistSession and the storage key pumpwork-auth, so a
saved hosted-auth session survives beyond the in-memory React state,
contradicting the claim that no identity state is written to storage
that outlives it. -/
theorem c6_counterexample :
    supabaseAuthOptions.persistSession = true ∧
    supabaseAuthOptions.storageKey = "pumpwork-auth" ∧
    vendorSessionStorage supabaseAuthOptions "session-tokens" =
      [("pumpwork-auth", "session-tokens")] ∧
    vendorSessionStorage supabaseAuthOptions "session-tokens" ≠ [] := by
  refine ⟨rfl, rfl, rfl, ?_⟩
  simp [vendorSessionStorage, supabaseAuthOptions]

/-- C6, amended: the Session Reconciler itself performs no browser
storage writes — the effect trace of every modelled operation is free of
storage-write effects, so the identity state it manages itself lives
only in in-memory React state — but it delegates hosted-auth session
persistence to the vendor client, which it configures with
persistSession true under the storage key pumpwork-auth, so hosted-auth
identity state does survive beyond the in-memory state. -/
theorem c6_no_own_storage_writes :
    (∀ s dbo k, Effect.storageWrite k ∉ (updateProfile s dbo).2.2) ∧
    (∀ s env k, Effect.storageWrite k ∉ (connectWallet s env).2.2) ∧
    (∀ s env k, Effect.storageWrite k ∉ (signInWithWallet s env).2.2) ∧
    (∀ s su rib ini fo m k,
      Effect.storageWrite k ∉ (updateAuthState s su rib ini fo m).2) ∧
    (∀ s uid fo m k,
      Effect.storageWrite k ∉ (runBackgroundRetry s uid fo m).2) ∧
    (∀ s uid k, Effect.storageWrite k ∉ (subscribeToProfile s uid).2) ∧
    (∀ s k, Effect.storageWrite k ∉ (handleSignedOutEvent s).2) ∧
    (∀ s so k, Effect.storageWrite k ∉ (signOut s so).2.2) ∧
    supabaseAuthOptions.persistSession = true ∧
    supabaseAuthOptions.storageKey = "pumpwork-auth" ∧
    (∀ j, vendorSessionStorage supabaseAuthOptions j = [("pumpwork-auth", j)]) := by
  refine ⟨fun s dbo k => ?_, fun s env k => ?_, fun s env k => ?_,
    fun s su rib ini fo m k => ?_, fun s uid fo m k => ?_,
    fun s uid k => ?_, fun s k => ?_, fun s so k => ?_,
    rfl, rfl, fun j => rfl⟩
  · rcases hu : s.user with _ | u <;> rcases dbo with e | row <;>
      simp [updateProfile, hu]
  · rcases hph : env.phantomInstalled with _ | _
    · simp [connectWallet, hph]
    · rcases hc : env.connectOutcome with e | addr
      · simp [connectWallet, hph, hc]
      · rcases hu : s.user with _ | u <;>
          rcases hl : env.profileLookup with e₂ | lp <;>
            (try rcases lp with _ | row) <;>
              rcases hw : env.walletUpdateOutcome with e₃ | row₂ <;>
                simp [connectWallet, updateProfile, hph, hc, hu, hl, hw]
  · rcases hph : env.phantomInstalled with _ | _
    · simp [signInWithWallet, connectWallet, hph]
    · rcases hc : env.connectOutcome with e | addr
      · simp [signInWithWallet, connectWallet, hph, hc]
      · rcases hu : s.user with _ | u <;>
          rcases hl : env.profileLookup with e₂ | lp <;>
            (try rcases lp with _ | row) <;>
              rcases hw : env.walletUpdateOutcome with e₃ | row₂ <;>
                simp [signInWithWallet, connectWallet, updateProfile,
                  hph, hc, hu, hl, hw]
  · rcases hbr : s.backgroundRetry with _ | b <;> rcases su with _ | uid
    · simp [updateAuthState, hbr]
    · rcases fo with e | pd
      · cases m <;> simp [updateAuthState, hbr] <;> split_ifs <;> simp
      · rcases pd with _ | p <;> cases m <;>
          rcases hpc : s.profileChannel with _ | ch <;>
            simp [updateAuthState, subscribeToProfile, hbr, hpc]
    · simp [updateAuthState, hbr]
    · rcases fo with e | pd
      · cases m <;> simp [updateAuthState, hbr] <;> split_ifs <;> simp
      · rcases pd with _ | p <;> cases m <;>
          rcases hpc : s.profileChannel with _ | ch <;>
            simp [updateAuthState, subscribeToProfile, hbr, hpc]
  · rcases fo with e | pd <;> (try rcases pd with _ | p) <;> cases m <;>
      rcases hpc : s.profileChannel with _ | ch <;>
        simp [runBackgroundRetry, subscribeToProfile, hpc]
  · rcases hpc : s.profileChannel with _ | ch <;>
      simp [subscribeToProfile, hpc]
  · rcases hpc : s.profileChannel with _ | ch <;>
      simp [handleSignedOutEvent, removeProfileChannel, hpc]
  · rcases hpc : s.profileChannel with _ | ch <;>
      rcases so with _ | e <;>
        rcases hbr : s.backgroundRetry with _ | b <;>
          simp [signOut, removeProfileChannel, hpc, hbr]

/-- C6 witness: the frame property instantiated at a concrete
operation and key. -/
theorem c6_witness :
    Effect.storageWrite "pumpwork-auth" ∉
      (signInWithWallet initialAuthState sampleWalletEnv).2.2 :=
  c6_no_own_storage_writes.2.2.1 initialAuthState sampleWalletEnv
    "pumpwork-auth"
